import Mathlib

/-!
Shallow embedding of the book-notes web application (the authenticated
variant: Express routes, passport local strategy, user-scoped Postgres
queries).  Pure functions model the route handlers; the database tables
are lists of rows; the external bcrypt and Open Library collaborators are
passed in as function parameters.  JavaScript's string falsiness (`x ||
null`, `!isbn`) is modelled by comparison with the empty string, which is
the only falsy string value a parsed form field or route parameter can
take.
-/

namespace BookNotesApp

/-- A row of `users(id, email unique, password)`; `password` stores the
bcrypt hash, as in the register handler's INSERT. -/
structure User where
  id : Nat
  email : String
  password : String
  deriving Repr, DecidableEq

/-- A row of `books(id, user_id, title, author, isbn, cover_url, rating,
finished_on, notes, created_at)`.  Dates are modelled as `Option Nat`
(days since an epoch); SQL NULL is `none`. -/
structure Book where
  id : Nat
  user_id : Nat
  title : String
  author : Option String
  isbn : Option String
  cover_url : Option String
  rating : Option Int
  finished_on : Option Nat
  notes : Option String
  created_at : Nat
  deriving Repr, DecidableEq

/-- The observable HTTP responses the modelled handlers produce. -/
inductive Response where
  | redirect (location : String)
  | renderRegisterError (message : String)
  | renderBookForm (book : Book)
  | httpError (status : Nat) (body : String)
  | jsonCover (isbn : String) (cover_url : String)
  deriving Repr, DecidableEq

/-! ## Cover lookup (`fetchCoverUrl` and `GET /api/cover/:isbn`) -/

/-- The `cover` object of an Open Library entry: optional `medium` and
`large` image URLs. -/
structure CoverImages where
  medium : Option String
  large : Option String
  deriving Repr, DecidableEq

/-- One entry of the Open Library JSON response: the `ISBN:x` key maps to
an object that may or may not carry a `cover` object. -/
structure CoverEntry where
  cover : Option CoverImages
  deriving Repr, DecidableEq

/-- Outcome of the single outbound axios GET: either it throws (timeout,
network error, non-2xx - the catch branch), or it yields a JSON body in
which the requested ISBN key is present or absent. -/
inductive LookupOutcome where
  | failure
  | response (entry : Option CoverEntry)
  deriving Repr, DecidableEq

/-- JavaScript `a || b` on optional strings: an absent or empty string
falls through to `b`. -/
def jsOrString (a b : Option String) : Option String :=
  match a with
  | some s => if s = "" then b else some s
  | none => b

/-- The `medium` URL reached by `entry?.cover?.medium`. -/
def mediumOf (e : CoverEntry) : Option String :=
  e.cover.bind CoverImages.medium

/-- The `large` URL reached by `entry?.cover?.large`. -/
def largeOf (e : CoverEntry) : Option String :=
  e.cover.bind CoverImages.large

/-- `fetchCoverUrl(isbn)`: empty ISBN short-circuits to `null` with no
outbound call; a thrown lookup is caught and yields `null`; otherwise the
result is `entry?.cover?.medium || entry?.cover?.large || null`.  The
second component records whether the outbound call was made. -/
def fetchCoverUrl (lookup : String → LookupOutcome) (isbn : String) :
    Option String × Bool :=
  if isbn = "" then (none, false)
  else
    match lookup isbn with
    | LookupOutcome.failure => (none, true)
    | LookupOutcome.response none => (none, true)
    | LookupOutcome.response (some entry) =>
        (jsOrString (mediumOf entry) (jsOrString (largeOf entry) none), true)

/-- The fixed inline SVG placeholder data URL (`PLACEHOLDER_COVER` in the
source; the exact SVG payload is abbreviated here, the claims depend only
on it being one fixed constant). -/
def PLACEHOLDER_COVER : String :=
  "data:image/svg+xml,(inline no-cover placeholder svg)"

/-- JavaScript `url || PLACEHOLDER_COVER` for the JSON response field. -/
def jsOrDefault (a : Option String) (d : String) : String :=
  match a with
  | some s => if s = "" then d else s
  | none => d

/-- `GET /api/cover/:isbn`: responds `{isbn, cover_url: url ||
PLACEHOLDER_COVER}`. -/
def apiCoverHandler (lookup : String → LookupOutcome) (isbn : String) :
    Response :=
  Response.jsonCover isbn (jsOrDefault (fetchCoverUrl lookup isbn).1 PLACEHOLDER_COVER)

/-! ## Authentication -/

/-- The generic failure message used by the passport local strategy for
both an unknown email and a wrong password. -/
def invalidCredentialsMessage : String := "Invalid email or password"

/-- Result of the local strategy verify callback: a user identity, or a
failure with a message. -/
inductive VerifyResult where
  | ok (id : Nat) (email : String)
  | failed (message : String)
  deriving Repr, DecidableEq

/-- The local strategy verify callback: `SELECT * FROM users WHERE email =
$1`; no row fails with the generic message; otherwise
`bcrypt.compare(password, user.password)` decides between success and the
same generic message.  `compare` stands for the external bcrypt
comparison. -/
def verifyLocal (users : List User) (compare : String → String → Bool)
    (email password : String) : VerifyResult :=
  match users.find? (fun u => u.email == email) with
  | none => VerifyResult.failed invalidCredentialsMessage
  | some u =>
      if compare password u.password then VerifyResult.ok u.id u.email
      else VerifyResult.failed invalidCredentialsMessage

/-- `POST /login`: `passport.authenticate` with `successRedirect: "/"` and
`failureRedirect: "/login?error=1"`. -/
def postLogin (users : List User) (compare : String → String → Bool)
    (email password : String) : Response :=
  match verifyLocal users compare email password with
  | VerifyResult.ok _ _ => Response.redirect "/"
  | VerifyResult.failed _ => Response.redirect "/login?error=1"

/-- The bcrypt work factor the register handler passes to `bcrypt.hash`. -/
def saltRounds : Nat := 10

/-- Authentication-relevant server state: the `users` table, the next
SERIAL id, and the session's logged-in user id (if any). -/
structure AuthState where
  users : List User
  nextUserId : Nat
  session : Option Nat
  deriving Repr, DecidableEq

/-- `POST /register`: `SELECT id FROM users WHERE email = $1`; an existing
row re-renders the register view with an error and inserts nothing;
otherwise the handler hashes the password with `bcrypt.hash(password,
saltRounds)`, inserts the new user row, logs the new user in
(`req.login`), and redirects home.  `hash` stands for the external bcrypt
hash. -/
def postRegister (hash : String → Nat → String) (st : AuthState)
    (email password : String) : AuthState × Response :=
  if st.users.any (fun u => u.email == email) then
    (st, Response.renderRegisterError "Email already registered")
  else
    let newUser : User := ⟨st.nextUserId, email, hash password saltRounds⟩
    ({ users := st.users ++ [newUser], nextUserId := st.nextUserId + 1,
       session := some newUser.id },
     Response.redirect "/")

/-! ## Route guard (`requireAuth`) -/

/-- The operations the spec lists as auth-required: the book listing, the
two book forms, create, update, delete, and `POST /logout`. -/
inductive AuthOp where
  | listBooksPage
  | newBookForm
  | createBookOp
  | editBookForm
  | updateBookOp
  | deleteBookOp
  | logout
  deriving Repr, DecidableEq

/-- Whether the source registers the route with the `requireAuth`
middleware.  The six book routes have it; `POST /logout` does not. -/
def requiresAuthMiddleware : AuthOp → Bool
  | AuthOp.listBooksPage => true
  | AuthOp.newBookForm => true
  | AuthOp.createBookOp => true
  | AuthOp.editBookForm => true
  | AuthOp.updateBookOp => true
  | AuthOp.deleteBookOp => true
  | AuthOp.logout => false

/-- What a request observes: the response, whether the route's own handler
ran (as opposed to being cut off by the guard), and the session after the
request. -/
structure GateOutcome where
  response : Response
  handlerRan : Bool
  sessionAfter : Option Nat
  deriving Repr, DecidableEq

/-- Dispatch of one of the listed operations for a request carrying no
valid session.  A route behind `requireAuth` is redirected to `/login`
before its handler runs, mutating nothing.  `POST /logout` carries no
guard: its handler runs, `req.logout` leaves the (already absent) session
empty, and it redirects to `/login`. -/
def dispatchNoSession (op : AuthOp) : GateOutcome :=
  if requiresAuthMiddleware op then
    { response := Response.redirect "/login", handlerRan := false,
      sessionAfter := none }
  else
    { response := Response.redirect "/login", handlerRan := true,
      sessionAfter := none }

/-! ## Book CRUD (ownership-scoped queries) -/

/-- The editable column values an update or insert writes: title plus the
five optional fields. -/
structure BookFields where
  title : String
  author : Option String
  isbn : Option String
  rating : Option Int
  notes : Option String
  finished_on : Option Nat
  deriving Repr, DecidableEq

/-- `GET /books/:id/edit` query: `SELECT * FROM books WHERE id = $1 AND
user_id = $2`, taking `rows[0]`. -/
def getBookForEdit (books : List Book) (userId bookId : Nat) : Option Book :=
  (books.filter (fun b => b.id == bookId && b.user_id == userId)).head?

/-- `GET /books/:id/edit` response: 404 "Book not found" when the scoped
query returns no row, else the prefilled form. -/
def editFormResponse (books : List Book) (userId bookId : Nat) : Response :=
  match getBookForEdit books userId bookId with
  | none => Response.httpError 404 "Book not found"
  | some b => Response.renderBookForm b

/-- SET clause of the update: overwrite the six editable columns, keep
everything else. -/
def applyFields (b : Book) (f : BookFields) : Book :=
  { b with title := f.title, author := f.author, isbn := f.isbn,
           rating := f.rating, notes := f.notes, finished_on := f.finished_on }

/-- `POST /books/:id/edit` query: `UPDATE books SET ... WHERE id = $7 AND
user_id = $8`. -/
def updateBook (books : List Book) (userId bookId : Nat) (f : BookFields) :
    List Book :=
  books.map (fun b =>
    if b.id == bookId && b.user_id == userId then applyFields b f else b)

/-- `POST /books/:id/delete` query: `DELETE FROM books WHERE id = $1 AND
user_id = $2`. -/
def deleteBook (books : List Book) (userId bookId : Nat) : List Book :=
  books.filter (fun b => !(b.id == bookId && b.user_id == userId))

/-! ## Form handling (`POST /books`, `POST /books/:id/edit`) -/

/-- The six parsed form fields; body-parser yields strings, a blank input
is the empty string. -/
structure BookForm where
  title : String
  author : String
  isbn : String
  rating : String
  notes : String
  finished_on : String
  deriving Repr, DecidableEq

/-- JavaScript `field || null` on a parsed form field: empty becomes SQL
NULL, anything else passes through. -/
def jsOrNull (s : String) : Option String :=
  if s = "" then none else some s

/-- The parameter values both mutation handlers build: `title` raw, each
optional field through `field || null`. -/
structure FieldParams where
  title : String
  author : Option String
  isbn : Option String
  rating : Option String
  notes : Option String
  finished_on : Option String
  deriving Repr, DecidableEq

/-- The coercion both `POST /books` and `POST /books/:id/edit` apply to
the request body before the query. -/
def coerceFields (form : BookForm) : FieldParams :=
  { title := form.title, author := jsOrNull form.author,
    isbn := jsOrNull form.isbn, rating := jsOrNull form.rating,
    notes := jsOrNull form.notes, finished_on := jsOrNull form.finished_on }

/-- `POST /books`: the INSERT parameters (coerced fields plus the
requesting user's id) and the redirect home. -/
def postBooks (userId : Nat) (form : BookForm) : FieldParams × Nat × Response :=
  (coerceFields form, userId, Response.redirect "/")

/-- `POST /books/:id/edit`: the UPDATE parameters (coerced SET values, the
WHERE pair of book id and user id) and the redirect home. -/
def postBookEdit (userId bookId : Nat) (form : BookForm) :
    FieldParams × Nat × Nat × Response :=
  (coerceFields form, bookId, userId, Response.redirect "/")

/-! ## Listing and sorting (`GET /`)

An `ORDER BY k1, k2, ...` clause is embedded as a boolean comparator built
from integer key functions: `DESC` negates the key, `NULLS LAST` prepends
a null flag, ties fall through to the next key.  The handler's query is
then modelled as sorting the user's rows by that comparator. -/

/-- Lexicographic step: compare one integer key, fall through to the tie
comparator on equality. -/
def byKey (k : Book → Int) (tie : Book → Book → Bool) (a b : Book) : Bool :=
  decide (k a < k b) || (k a == k b && tie a b)

/-- Everything ties: the end of an ORDER BY key list. -/
def alwaysTie : Book → Book → Bool := fun _ _ => true

/-- NULLS LAST flag for `finished_on`: null rows sort after non-null. -/
def finNullKey (b : Book) : Int :=
  match b.finished_on with
  | some _ => 0
  | none => 1

/-- `finished_on DESC` as an ascending integer key (null rows tie here and
are separated by the null flag). -/
def finValKey (b : Book) : Int :=
  match b.finished_on with
  | some d => -(d : Int)
  | none => 0

/-- `id DESC` as an ascending integer key. -/
def idDescKey (b : Book) : Int := -(b.id : Int)

/-- NULLS LAST flag for `rating`. -/
def ratingNullKey (b : Book) : Int :=
  match b.rating with
  | some _ => 0
  | none => 1

/-- `rating DESC` as an ascending integer key. -/
def ratingValKey (b : Book) : Int :=
  match b.rating with
  | some r => -r
  | none => 0

/-- `ORDER BY finished_on DESC NULLS LAST, id DESC`. -/
def recentLe : Book → Book → Bool :=
  byKey finNullKey (byKey finValKey (byKey idDescKey alwaysTie))

/-- `ORDER BY rating DESC NULLS LAST, finished_on DESC NULLS LAST`. -/
def ratingLe : Book → Book → Bool :=
  byKey ratingNullKey (byKey ratingValKey
    (byKey finNullKey (byKey finValKey alwaysTie)))

/-- Lexicographic comparison of character sequences by code point, the
model of text ASC comparison. -/
def lexLe : List Char → List Char → Bool
  | [], _ => true
  | _ :: _, [] => false
  | a :: as, b :: bs =>
      decide (a.val.toNat < b.val.toNat) ||
        (a.val.toNat == b.val.toNat && lexLe as bs)

/-- `LOWER(title)`: the title's characters, lowercased. -/
def lowerChars (s : String) : List Char := s.data.map Char.toLower

/-- `ORDER BY LOWER(title) ASC`. -/
def titleLe (a b : Book) : Bool :=
  lexLe (lowerChars a.title) (lowerChars b.title)

/-- `req.query.sort || "recent"`: an absent or empty sort parameter
becomes "recent". -/
def resolveSort (q : Option String) : String :=
  match q with
  | some s => if s = "" then "recent" else s
  | none => "recent"

/-- The handler's ORDER BY selection: "rating" and "title" get their
comparators, every other value gets the recent ordering. -/
def orderFor (sort : String) : Book → Book → Bool :=
  if sort = "rating" then ratingLe
  else if sort = "title" then titleLe
  else recentLe

/-- Insert into a list, before the first element the new one compares
less-or-equal to. -/
def insertLe {α : Type} (le : α → α → Bool) (x : α) : List α → List α
  | [] => [x]
  | y :: ys => if le x y then x :: y :: ys else y :: insertLe le x ys

/-- Insertion sort by a boolean comparator: the model of a SQL ORDER BY
result (any list sorted by the comparator is an admissible result; this
picks one deterministically). -/
def sortByLe {α : Type} (le : α → α → Bool) : List α → List α
  | [] => []
  | x :: xs => insertLe le x (sortByLe le xs)

/-- `GET /` query: `SELECT * FROM books WHERE user_id = $1` followed by
the selected ORDER BY. -/
def listBooks (books : List Book) (userId : Nat) (q : Option String) :
    List Book :=
  sortByLe (orderFor (resolveSort q))
    (books.filter (fun b => b.user_id == userId))

/-! ## Concrete fixtures used by the example parts of the theorems -/

/-- A lookup that always throws (timeout or network error). -/
def demoFailureLookup : String → LookupOutcome := fun _ => LookupOutcome.failure

/-- An entry carrying both a medium and a large cover URL. -/
def demoCoverEntry : CoverEntry := ⟨some ⟨some "mUrl", some "lUrl"⟩⟩

/-- A lookup that finds `demoCoverEntry` for every ISBN. -/
def demoEntryLookup : String → LookupOutcome :=
  fun _ => LookupOutcome.response (some demoCoverEntry)

/-- A one-user table for the login example. -/
def demoUsers : List User := [⟨1, "alice@example.com", "stored-hash"⟩]

/-- A bcrypt comparison that rejects every password. -/
def neverMatchCompare : String → String → Bool := fun _ _ => false

/-- A stand-in for the external bcrypt hash. -/
def demoHash : String → Nat → String := fun p _ => p ++ "-hashed"

/-- Server state holding `demoUsers` with next SERIAL id 2 and no
session. -/
def demoAuthState : AuthState := ⟨demoUsers, 2, none⟩

/-- A book owned by user 2, the target of user 1's cross-user attempts. -/
def otherUsersBook : Book := ⟨1, 2, "Dune", none, none, none, none, none, none, 0⟩

/-- Replacement field values for the update examples. -/
def demoFields : BookFields := ⟨"T", none, none, none, none, none⟩

def titleApple : Book := ⟨1, 1, "Apple", none, none, none, none, none, none, 0⟩

def titleBanana : Book := ⟨2, 1, "banana", none, none, none, none, none, none, 0⟩

def titleCherry : Book := ⟨3, 1, "cherry", none, none, none, none, none, none, 0⟩

def rated5 : Book := ⟨1, 1, "a", none, none, none, some 5, none, none, 0⟩

def ratedNone : Book := ⟨2, 1, "b", none, none, none, none, none, none, 0⟩

def rated3 : Book := ⟨3, 1, "c", none, none, none, some 3, none, none, 0⟩

/-- A form submission whose title input was left blank. -/
def emptyTitleForm : BookForm := ⟨"", "An Author", "", "", "", ""⟩

/-! ## Comparator lemmas -/

lemma alwaysTie_trans : ∀ a b c : Book, alwaysTie a b = true →
    alwaysTie b c = true → alwaysTie a c = true := fun _ _ _ _ _ => rfl

lemma alwaysTie_total : ∀ a b : Book, (alwaysTie a b || alwaysTie b a) = true :=
  fun _ _ => rfl

lemma byKey_trans {k : Book → Int} {tie : Book → Book → Bool}
    (htie : ∀ a b c, tie a b = true → tie b c = true → tie a c = true) :
    ∀ a b c, byKey k tie a b = true → byKey k tie b c = true →
      byKey k tie a c = true := by
  intro a b c hab hbc
  simp only [byKey, Bool.or_eq_true, decide_eq_true_eq, Bool.and_eq_true,
    beq_iff_eq] at hab hbc ⊢
  rcases hab with h1 | ⟨h1, h1t⟩ <;> rcases hbc with h2 | ⟨h2, h2t⟩
  · exact Or.inl (by omega)
  · exact Or.inl (by omega)
  · exact Or.inl (by omega)
  · exact Or.inr ⟨by omega, htie a b c h1t h2t⟩

lemma byKey_total {k : Book → Int} {tie : Book → Book → Bool}
    (htie : ∀ a b, (tie a b || tie b a) = true) :
    ∀ a b, (byKey k tie a b || byKey k tie b a) = true := by
  intro a b
  simp only [byKey, Bool.or_eq_true, decide_eq_true_eq, Bool.and_eq_true,
    beq_iff_eq]
  rcases lt_trichotomy (k a) (k b) with h | h | h
  · exact Or.inl (Or.inl h)
  · have := htie a b
    simp only [Bool.or_eq_true] at this
    rcases this with ht | ht
    · exact Or.inl (Or.inr ⟨h, ht⟩)
    · exact Or.inr (Or.inr ⟨h.symm, ht⟩)
  · exact Or.inr (Or.inl h)

lemma recentLe_trans : ∀ a b c, recentLe a b = true → recentLe b c = true →
    recentLe a c = true :=
  byKey_trans (byKey_trans (byKey_trans alwaysTie_trans))

lemma recentLe_total : ∀ a b, (recentLe a b || recentLe b a) = true :=
  byKey_total (byKey_total (byKey_total alwaysTie_total))

lemma ratingLe_trans : ∀ a b c, ratingLe a b = true → ratingLe b c = true →
    ratingLe a c = true :=
  byKey_trans (byKey_trans (byKey_trans (byKey_trans alwaysTie_trans)))

lemma ratingLe_total : ∀ a b, (ratingLe a b || ratingLe b a) = true :=
  byKey_total (byKey_total (byKey_total (byKey_total alwaysTie_total)))

lemma lexLe_trans : ∀ xs ys zs : List Char, lexLe xs ys = true →
    lexLe ys zs = true → lexLe xs zs = true := by
  intro xs
  induction xs with
  | nil => intro ys zs _ _; simp [lexLe]
  | cons a as ih =>
    intro ys zs h1 h2
    cases ys with
    | nil => simp [lexLe] at h1
    | cons b bs =>
      cases zs with
      | nil => simp [lexLe] at h2
      | cons c cs =>
        simp only [lexLe, Bool.or_eq_true, decide_eq_true_eq,
          Bool.and_eq_true, beq_iff_eq] at h1 h2 ⊢
        rcases h1 with h1 | ⟨h1, h1t⟩ <;> rcases h2 with h2 | ⟨h2, h2t⟩
        · exact Or.inl (by omega)
        · exact Or.inl (by omega)
        · exact Or.inl (by omega)
        · exact Or.inr ⟨by omega, ih bs cs h1t h2t⟩

lemma lexLe_total : ∀ xs ys : List Char, (lexLe xs ys || lexLe ys xs) = true := by
  intro xs
  induction xs with
  | nil => intro ys; simp [lexLe]
  | cons a as ih =>
    intro ys
    cases ys with
    | nil => simp [lexLe]
    | cons b bs =>
      simp only [lexLe, Bool.or_eq_true, decide_eq_true_eq,
        Bool.and_eq_true, beq_iff_eq]
      rcases Nat.lt_trichotomy a.val.toNat b.val.toNat with h | h | h
      · exact Or.inl (Or.inl h)
      · have := ih bs
        simp only [Bool.or_eq_true] at this
        rcases this with ht | ht
        · exact Or.inl (Or.inr ⟨h, ht⟩)
        · exact Or.inr (Or.inr ⟨h.symm, ht⟩)
      · exact Or.inr (Or.inl h)

lemma titleLe_trans : ∀ a b c, titleLe a b = true → titleLe b c = true →
    titleLe a c = true := by
  intro a b c h1 h2
  exact lexLe_trans _ _ _ h1 h2

lemma titleLe_total : ∀ a b, (titleLe a b || titleLe b a) = true := by
  intro a b
  exact lexLe_total _ _

lemma orderFor_trans (s : String) : ∀ a b c, orderFor s a b = true →
    orderFor s b c = true → orderFor s a c = true := by
  unfold orderFor
  split_ifs
  · exact ratingLe_trans
  · exact titleLe_trans
  · exact recentLe_trans

lemma orderFor_total (s : String) : ∀ a b,
    (orderFor s a b || orderFor s b a) = true := by
  unfold orderFor
  split_ifs
  · exact ratingLe_total
  · exact titleLe_total
  · exact recentLe_total

/-! ## Insertion sort lemmas -/

lemma insertLe_perm {α : Type} (le : α → α → Bool) (x : α) (l : List α) :
    (insertLe le x l).Perm (x :: l) := by
  induction l with
  | nil => exact List.Perm.refl _
  | cons y ys ih =>
    simp only [insertLe]
    split
    · exact List.Perm.refl _
    · exact (ih.cons y).trans (List.Perm.swap x y ys)

lemma sortByLe_perm {α : Type} (le : α → α → Bool) (l : List α) :
    (sortByLe le l).Perm l := by
  induction l with
  | nil => exact List.Perm.refl _
  | cons x xs ih =>
    exact (insertLe_perm le x (sortByLe le xs)).trans (ih.cons x)

lemma pairwise_insertLe {α : Type} {le : α → α → Bool}
    (htrans : ∀ a b c, le a b = true → le b c = true → le a c = true)
    (htotal : ∀ a b, (le a b || le b a) = true)
    (x : α) (l : List α) (h : l.Pairwise (fun a b => le a b = true)) :
    (insertLe le x l).Pairwise (fun a b => le a b = true) := by
  induction l with
  | nil => simp [insertLe]
  | cons y ys ih =>
    rw [List.pairwise_cons] at h
    simp only [insertLe]
    by_cases hxy : le x y = true
    · rw [if_pos hxy, List.pairwise_cons]
      refine ⟨?_, List.pairwise_cons.mpr h⟩
      intro z hz
      rcases List.mem_cons.mp hz with rfl | hz
      · exact hxy
      · exact htrans x y z hxy (h.1 z hz)
    · rw [if_neg hxy, List.pairwise_cons]
      have hyx : le y x = true := by
        have := htotal x y
        simp only [Bool.or_eq_true] at this
        rcases this with h' | h'
        · exact absurd h' hxy
        · exact h'
      refine ⟨?_, ih h.2⟩
      intro z hz
      have hz' := (insertLe_perm le x ys).mem_iff.mp hz
      rcases List.mem_cons.mp hz' with rfl | hz''
      · exact hyx
      · exact h.1 z hz''

lemma pairwise_sortByLe {α : Type} {le : α → α → Bool}
    (htrans : ∀ a b c, le a b = true → le b c = true → le a c = true)
    (htotal : ∀ a b, (le a b || le b a) = true) (l : List α) :
    (sortByLe le l).Pairwise (fun a b => le a b = true) := by
  induction l with
  | nil => simp [sortByLe]
  | cons x xs ih => exact pairwise_insertLe htrans htotal x _ ih

/-! ## No-match no-op lemmas -/

lemma match_false_of_other_user {books : List Book} {u1 u2 : Nat} {b : Book}
    (hne : u1 ≠ u2) (hown : b.user_id = u2)
    (hid : ∀ b' ∈ books, b'.id = b.id → b' = b) :
    ∀ b' ∈ books, (b'.id == b.id && b'.user_id == u1) = false := by
  intro b' hb'
  by_cases h : b'.id = b.id
  · have hb := hid b' hb' h
    subst hb
    simp only [h, hown, beq_self_eq_true, Bool.true_and, beq_eq_false_iff_ne,
      ne_eq]
    exact Ne.symm hne
  · simp [h]

lemma updateBook_eq_of_no_match {books : List Book} {userId bookId : Nat}
    (f : BookFields)
    (h : ∀ b ∈ books, (b.id == bookId && b.user_id == userId) = false) :
    updateBook books userId bookId f = books := by
  induction books with
  | nil => rfl
  | cons b bs ih =>
    have hb := h b (List.mem_cons_self b bs)
    simp only [updateBook, List.map_cons, hb, Bool.false_eq_true, if_false,
      List.cons.injEq, true_and]
    exact ih (fun x hx => h x (List.mem_cons_of_mem b hx))

lemma deleteBook_eq_of_no_match {books : List Book} {userId bookId : Nat}
    (h : ∀ b ∈ books, (b.id == bookId && b.user_id == userId) = false) :
    deleteBook books userId bookId = books := by
  induction books with
  | nil => rfl
  | cons b bs ih =>
    have hb := h b (List.mem_cons_self b bs)
    simp only [deleteBook, List.filter_cons, hb, Bool.not_false, if_pos,
      List.cons.injEq, true_and]
    exact ih (fun x hx => h x (List.mem_cons_of_mem b hx))

lemma getBookForEdit_none_of_no_match {books : List Book} {userId bookId : Nat}
    (h : ∀ b ∈ books, (b.id == bookId && b.user_id == userId) = false) :
    getBookForEdit books userId bookId = none := by
  unfold getBookForEdit
  have : books.filter (fun b => b.id == bookId && b.user_id == userId) = [] := by
    rw [List.filter_eq_nil_iff]
    intro b hb
    simp [h b hb]
  rw [this]
  rfl

lemma jsOrNull_eq_none_iff (s : String) : jsOrNull s = none ↔ s = "" := by
  unfold jsOrNull
  split_ifs with h <;> simp [h]

/-! ## Claims -/

/-- C1: for distinct users U1 and U2 and a book owned by U2 (its id unique
in the table), U1's read-for-edit on that id yields NotFound (404 "Book
not found") and U1's update and delete on that id are no-ops, because the
read, update, and delete queries all filter by both the book id and the
requesting user's id. -/
theorem C1_cross_user_isolation (books : List Book) (u1 u2 : Nat) (b : Book)
    (f : BookFields) (hne : u1 ≠ u2) (_hb : b ∈ books) (hown : b.user_id = u2)
    (hid : ∀ b' ∈ books, b'.id = b.id → b' = b) :
    getBookForEdit books u1 b.id = none ∧
    editFormResponse books u1 b.id = Response.httpError 404 "Book not found" ∧
    updateBook books u1 b.id f = books ∧
    deleteBook books u1 b.id = books := by
  have hm := match_false_of_other_user hne hown hid
  refine ⟨getBookForEdit_none_of_no_match hm, ?_,
    updateBook_eq_of_no_match f hm, deleteBook_eq_of_no_match hm⟩
  unfold editFormResponse
  rw [getBookForEdit_none_of_no_match hm]

/-- C1 witness: user 1 against user 2's book. -/
theorem C1_cross_user_isolation_witness :
    (1 : Nat) ≠ 2 ∧ otherUsersBook ∈ [otherUsersBook] ∧
    otherUsersBook.user_id = 2 ∧
    (getBookForEdit [otherUsersBook] 1 otherUsersBook.id = none ∧
     editFormResponse [otherUsersBook] 1 otherUsersBook.id =
       Response.httpError 404 "Book not found" ∧
     updateBook [otherUsersBook] 1 otherUsersBook.id demoFields =
       [otherUsersBook] ∧
     deleteBook [otherUsersBook] 1 otherUsersBook.id = [otherUsersBook]) :=
  ⟨by decide, by decide, by decide,
   C1_cross_user_isolation [otherUsersBook] 1 2 otherUsersBook demoFields
     (by decide) (by decide) (by decide) (by decide)⟩

/-- C2 counterexample: POST /logout is listed as auth-required, but the
source registers it without the requireAuth middleware, so for a request
with no session its handler runs rather than being cut off by the guard. -/
theorem C2_guard_counterexample :
    requiresAuthMiddleware AuthOp.logout = false ∧
    (dispatchNoSession AuthOp.logout).handlerRan = true :=
  ⟨rfl, rfl⟩

/-- C2 (amended): for a request with no valid session, every listed
auth-required operation except POST /logout redirects to /login without
running its handler and without mutating state; POST /logout is not
guarded, so its handler does run, but it leaves the absent session empty
and also redirects to /login. -/
theorem C2_guard_redirects (op : AuthOp) :
    (op ≠ AuthOp.logout →
      dispatchNoSession op =
        { response := Response.redirect "/login", handlerRan := false,
          sessionAfter := none }) ∧
    dispatchNoSession AuthOp.logout =
      { response := Response.redirect "/login", handlerRan := true,
        sessionAfter := none } := by
  constructor
  · intro h
    cases op
    · rfl
    · rfl
    · rfl
    · rfl
    · rfl
    · rfl
    · exact absurd rfl h
  · rfl

/-- C2 witness: the create operation, unauthenticated. -/
theorem C2_guard_redirects_witness :
    AuthOp.createBookOp ≠ AuthOp.logout ∧
    dispatchNoSession AuthOp.createBookOp =
      { response := Response.redirect "/login", handlerRan := false,
        sessionAfter := none } :=
  ⟨by decide, (C2_guard_redirects AuthOp.createBookOp).1 (by decide)⟩

/-- C3: a login attempt with an existing email but a failing password
comparison and one with an email absent from the users table both produce
the same failure: the identical generic message and the identical redirect
to the login form, so the caller cannot distinguish the two causes. -/
theorem C3_login_failures_indistinguishable (users : List User)
    (compare : String → String → Bool) (e1 p1 e2 p2 : String) (u : User)
    (h1 : users.find? (fun v => v.email == e1) = some u)
    (h2 : compare p1 u.password = false)
    (h3 : users.find? (fun v => v.email == e2) = none) :
    verifyLocal users compare e1 p1 =
      VerifyResult.failed invalidCredentialsMessage ∧
    verifyLocal users compare e2 p2 =
      VerifyResult.failed invalidCredentialsMessage ∧
    verifyLocal users compare e1 p1 = verifyLocal users compare e2 p2 ∧
    postLogin users compare e1 p1 = Response.redirect "/login?error=1" ∧
    postLogin users compare e1 p1 = postLogin users compare e2 p2 := by
  have hv1 : verifyLocal users compare e1 p1 =
      VerifyResult.failed invalidCredentialsMessage := by
    unfold verifyLocal
    rw [h1]
    simp [h2]
  have hv2 : verifyLocal users compare e2 p2 =
      VerifyResult.failed invalidCredentialsMessage := by
    unfold verifyLocal
    rw [h3]
  refine ⟨hv1, hv2, hv1.trans hv2.symm, ?_, ?_⟩
  · unfold postLogin
    rw [hv1]
  · unfold postLogin
    rw [hv1, hv2]

/-- C3 witness: wrong password for the stored user versus an unknown
email. -/
theorem C3_login_failures_indistinguishable_witness :
    demoUsers.find? (fun v => v.email == "alice@example.com") =
      some ⟨1, "alice@example.com", "stored-hash"⟩ ∧
    neverMatchCompare "wrong" "stored-hash" = false ∧
    demoUsers.find? (fun v => v.email == "nobody@example.com") = none ∧
    (verifyLocal demoUsers neverMatchCompare "alice@example.com" "wrong" =
       VerifyResult.failed invalidCredentialsMessage ∧
     verifyLocal demoUsers neverMatchCompare "nobody@example.com" "pw" =
       VerifyResult.failed invalidCredentialsMessage ∧
     verifyLocal demoUsers neverMatchCompare "alice@example.com" "wrong" =
       verifyLocal demoUsers neverMatchCompare "nobody@example.com" "pw" ∧
     postLogin demoUsers neverMatchCompare "alice@example.com" "wrong" =
       Response.redirect "/login?error=1" ∧
     postLogin demoUsers neverMatchCompare "alice@example.com" "wrong" =
       postLogin demoUsers neverMatchCompare "nobody@example.com" "pw") :=
  ⟨by decide, by decide, by decide,
   C3_login_failures_indistinguishable demoUsers neverMatchCompare
     "alice@example.com" "wrong" "nobody@example.com" "pw"
     ⟨1, "alice@example.com", "stored-hash"⟩
     (by decide) (by decide) (by decide)⟩

/-- C4: registering an email already present in the users table fails with
the duplicate-email error and inserts no row; otherwise the handler hashes
the password at work factor 10 (the fixed saltRounds), appends the new
user row, establishes a session for the new user, and redirects home. -/
theorem C4_register_duplicate_or_insert (hash : String → Nat → String)
    (st : AuthState) (email password : String) :
    (st.users.any (fun u => u.email == email) = true →
      (postRegister hash st email password).1 = st ∧
      (postRegister hash st email password).2 =
        Response.renderRegisterError "Email already registered") ∧
    (st.users.any (fun u => u.email == email) = false →
      (postRegister hash st email password).1.users =
        st.users ++ [⟨st.nextUserId, email, hash password 10⟩] ∧
      (postRegister hash st email password).1.session = some st.nextUserId ∧
      (postRegister hash st email password).2 = Response.redirect "/" ∧
      saltRounds = 10) := by
  constructor
  · intro h
    unfold postRegister
    rw [if_pos h]
    exact ⟨rfl, rfl⟩
  · intro h
    unfold postRegister
    rw [if_neg (by simp [h])]
    exact ⟨rfl, rfl, rfl, rfl⟩

/-- C4 witness: the stored email is rejected, a fresh one is inserted,
hashed at factor 10, and logged in. -/
theorem C4_register_duplicate_or_insert_witness :
    demoAuthState.users.any (fun u => u.email == "alice@example.com") = true ∧
    ((postRegister demoHash demoAuthState "alice@example.com" "pw").1 =
       demoAuthState ∧
     (postRegister demoHash demoAuthState "alice@example.com" "pw").2 =
       Response.renderRegisterError "Email already registered") ∧
    demoAuthState.users.any (fun u => u.email == "bob@example.com") = false ∧
    ((postRegister demoHash demoAuthState "bob@example.com" "pw").1.users =
       demoAuthState.users ++ [⟨2, "bob@example.com", demoHash "pw" 10⟩] ∧
     (postRegister demoHash demoAuthState "bob@example.com" "pw").1.session =
       some 2 ∧
     (postRegister demoHash demoAuthState "bob@example.com" "pw").2 =
       Response.redirect "/" ∧
     saltRounds = 10) :=
  ⟨by decide, (C4_register_duplicate_or_insert demoHash demoAuthState
      "alice@example.com" "pw").1 (by decide),
   by decide, (C4_register_duplicate_or_insert demoHash demoAuthState
      "bob@example.com" "pw").2 (by decide)⟩

/-- C5: when no row matches both the book id and the user id, update and
delete are silent no-ops: they complete and leave the books table exactly
as it was; in particular deleting a non-existent book id for a valid user
changes nothing. -/
theorem C5_update_delete_silent_noop (books : List Book)
    (userId bookId : Nat) (f : BookFields)
    (h : ∀ b ∈ books, ¬(b.id = bookId ∧ b.user_id = userId)) :
    updateBook books userId bookId f = books ∧
    deleteBook books userId bookId = books := by
  have hm : ∀ b ∈ books, (b.id == bookId && b.user_id == userId) = false := by
    intro b hb
    have hnb := h b hb
    by_cases h1 : b.id = bookId
    · by_cases h2 : b.user_id = userId
      · exact absurd ⟨h1, h2⟩ hnb
      · simp [h2]
    · simp [h1]
  exact ⟨updateBook_eq_of_no_match f hm, deleteBook_eq_of_no_match hm⟩

/-- C5 witness: user 2 updating and deleting the absent book id 99. -/
theorem C5_update_delete_silent_noop_witness :
    (∀ b ∈ [otherUsersBook], ¬(b.id = 99 ∧ b.user_id = 2)) ∧
    (updateBook [otherUsersBook] 2 99 demoFields = [otherUsersBook] ∧
     deleteBook [otherUsersBook] 2 99 = [otherUsersBook]) :=
  ⟨by decide, C5_update_delete_silent_noop [otherUsersBook] 2 99 demoFields
    (by decide)⟩

/-- C6: fetchCoverUrl on the empty ISBN returns no result with no
outbound call; a thrown lookup or a response missing the ISBN key yields
no result instead of an error; on a successful lookup the medium image is
preferred, else the large one, else no result; and the /api/cover handler
substitutes the fixed placeholder whenever no result comes back. -/
theorem C6_cover_lookup_degrades :
    (∀ lookup : String → LookupOutcome,
      fetchCoverUrl lookup "" = (none, false)) ∧
    (∀ (lookup : String → LookupOutcome) (isbn : String),
      lookup isbn = LookupOutcome.failure →
      (fetchCoverUrl lookup isbn).1 = none) ∧
    (∀ (lookup : String → LookupOutcome) (isbn : String),
      lookup isbn = LookupOutcome.response none →
      (fetchCoverUrl lookup isbn).1 = none) ∧
    (∀ (lookup : String → LookupOutcome) (isbn : String) (e : CoverEntry)
       (m : String), isbn ≠ "" →
      lookup isbn = LookupOutcome.response (some e) →
      mediumOf e = some m → m ≠ "" →
      (fetchCoverUrl lookup isbn).1 = some m) ∧
    (∀ (lookup : String → LookupOutcome) (isbn : String) (e : CoverEntry)
       (l : String), isbn ≠ "" →
      lookup isbn = LookupOutcome.response (some e) →
      (mediumOf e = none ∨ mediumOf e = some "") →
      largeOf e = some l → l ≠ "" →
      (fetchCoverUrl lookup isbn).1 = some l) ∧
    (∀ (lookup : String → LookupOutcome) (isbn : String) (e : CoverEntry),
      isbn ≠ "" →
      lookup isbn = LookupOutcome.response (some e) →
      (mediumOf e = none ∨ mediumOf e = some "") →
      (largeOf e = none ∨ largeOf e = some "") →
      (fetchCoverUrl lookup isbn).1 = none) ∧
    (∀ (lookup : String → LookupOutcome) (isbn : String),
      (fetchCoverUrl lookup isbn).1 = none →
      apiCoverHandler lookup isbn = Response.jsonCover isbn PLACEHOLDER_COVER) := by
  refine ⟨?_, ?_, ?_, ?_, ?_, ?_, ?_⟩
  · intro lookup
    rfl
  · intro lookup isbn hl
    unfold fetchCoverUrl
    by_cases h : isbn = ""
    · rw [if_pos h]
    · rw [if_neg h, hl]
  · intro lookup isbn hl
    unfold fetchCoverUrl
    by_cases h : isbn = ""
    · rw [if_pos h]
    · rw [if_neg h, hl]
  · intro lookup isbn e m hne hl hm hmne
    unfold fetchCoverUrl
    rw [if_neg hne, hl]
    simp [jsOrString, hm, hmne]
  · intro lookup isbn e l hne hl hm hlg hlne
    unfold fetchCoverUrl
    rw [if_neg hne, hl]
    rcases hm with hm | hm <;> simp [jsOrString, hm, hlg, hlne]
  · intro lookup isbn e hne hl hm hlg
    unfold fetchCoverUrl
    rw [if_neg hne, hl]
    rcases hm with hm | hm <;> rcases hlg with hlg | hlg <;>
      simp [jsOrString, hm, hlg]
  · intro lookup isbn h
    unfold apiCoverHandler
    rw [h]
    rfl

/-- C6 witness: empty ISBN, a failing lookup, a successful lookup
preferring the medium image, and the placeholder substitution. -/
theorem C6_cover_lookup_degrades_witness :
    fetchCoverUrl demoFailureLookup "" = (none, false) ∧
    (demoFailureLookup "123" = LookupOutcome.failure ∧
     (fetchCoverUrl demoFailureLookup "123").1 = none) ∧
    (("123" : String) ≠ "" ∧
     demoEntryLookup "123" = LookupOutcome.response (some demoCoverEntry) ∧
     mediumOf demoCoverEntry = some "mUrl" ∧ ("mUrl" : String) ≠ "" ∧
     (fetchCoverUrl demoEntryLookup "123").1 = some "mUrl") ∧
    ((fetchCoverUrl demoFailureLookup "123").1 = none ∧
     apiCoverHandler demoFailureLookup "123" =
       Response.jsonCover "123" PLACEHOLDER_COVER) :=
  ⟨C6_cover_lookup_degrades.1 demoFailureLookup,
   ⟨rfl, C6_cover_lookup_degrades.2.1 demoFailureLookup "123" rfl⟩,
   ⟨by decide, rfl, by decide, by decide,
    C6_cover_lookup_degrades.2.2.2.1 demoEntryLookup "123" demoCoverEntry
      "mUrl" (by decide) rfl (by decide) (by decide)⟩,
   ⟨C6_cover_lookup_degrades.2.1 demoFailureLookup "123" rfl,
    C6_cover_lookup_degrades.2.2.2.2.2.2 demoFailureLookup "123"
      (C6_cover_lookup_degrades.2.1 demoFailureLookup "123" rfl)⟩⟩

/-- C7: with the title sort key, listBooks returns exactly the user's
books ordered ascending by lowercased title; on books titled banana,
Apple, cherry the order is Apple, banana, cherry. -/
theorem C7_title_sort_case_insensitive :
    (∀ (books : List Book) (userId : Nat),
      (listBooks books userId (some "title")).Perm
        (books.filter (fun b => b.user_id == userId)) ∧
      (listBooks books userId (some "title")).Pairwise
        (fun a b => titleLe a b = true)) ∧
    listBooks [titleBanana, titleApple, titleCherry] 1 (some "title") =
      [titleApple, titleBanana, titleCherry] := by
  constructor
  · intro books userId
    have ho : orderFor (resolveSort (some "title")) = titleLe := rfl
    unfold listBooks
    rw [ho]
    exact ⟨sortByLe_perm _ _, pairwise_sortByLe titleLe_trans titleLe_total _⟩
  · decide

/-- C8: with the rating sort key, listBooks returns exactly the user's
books ordered by rating descending with unset ratings last, ties broken by
finished date descending with unset dates last; with ratings 5, null, 3
the 5-rated book is first, the 3-rated second, the unrated last. -/
theorem C8_rating_sort_nulls_last :
    (∀ (books : List Book) (userId : Nat),
      (listBooks books userId (some "rating")).Perm
        (books.filter (fun b => b.user_id == userId)) ∧
      (listBooks books userId (some "rating")).Pairwise
        (fun a b => ratingLe a b = true)) ∧
    listBooks [rated5, ratedNone, rated3] 1 (some "rating") =
      [rated5, rated3, ratedNone] := by
  constructor
  · intro books userId
    have ho : orderFor (resolveSort (some "rating")) = ratingLe := rfl
    unfold listBooks
    rw [ho]
    exact ⟨sortByLe_perm _ _, pairwise_sortByLe ratingLe_trans ratingLe_total _⟩
  · decide

/-- C9: for an absent sort key or any key outside recent, rating, title,
listBooks returns exactly the user's books in the recent ordering:
finished date descending with unset dates last, ties broken by id
descending. -/
theorem C9_unknown_sort_falls_back_to_recent (books : List Book)
    (userId : Nat) (q : Option String)
    (hq : q = none ∨ ∃ s, q = some s ∧ s ≠ "recent" ∧ s ≠ "rating" ∧
      s ≠ "title") :
    (listBooks books userId q).Perm
      (books.filter (fun b => b.user_id == userId)) ∧
    (listBooks books userId q).Pairwise (fun a b => recentLe a b = true) := by
  have ho : orderFor (resolveSort q) = recentLe := by
    rcases hq with rfl | ⟨s, rfl, _, hrat, htit⟩
    · rfl
    · by_cases hs : s = ""
      · subst hs
        rfl
      · have h1 : resolveSort (some s) = s := by simp [resolveSort, hs]
        rw [h1]
        unfold orderFor
        rw [if_neg hrat, if_neg htit]
  unfold listBooks
  rw [ho]
  exact ⟨sortByLe_perm _ _, pairwise_sortByLe recentLe_trans recentLe_total _⟩

/-- C9 witness: an unknown sort key on a table with tied and missing
finished dates. -/
theorem C9_unknown_sort_falls_back_to_recent_witness :
    ((some "alphabetical" : Option String) = none ∨
     ∃ s, (some "alphabetical" : Option String) = some s ∧ s ≠ "recent" ∧
       s ≠ "rating" ∧ s ≠ "title") ∧
    ((listBooks [rated5, ratedNone, rated3] 1 (some "alphabetical")).Perm
       ([rated5, ratedNone, rated3].filter (fun b => b.user_id == 1)) ∧
     (listBooks [rated5, ratedNone, rated3] 1 (some "alphabetical")).Pairwise
       (fun a b => recentLe a b = true)) :=
  ⟨Or.inr ⟨"alphabetical", rfl, by decide, by decide, by decide⟩,
   C9_unknown_sort_falls_back_to_recent [rated5, ratedNone, rated3] 1
     (some "alphabetical")
     (Or.inr ⟨"alphabetical", rfl, by decide, by decide, by decide⟩)⟩

/-- C10: both mutation handlers coerce only the optional fields from empty
to null and pass the title through unchanged, so an empty title is
forwarded to the store rather than rejected: the handlers still redirect
home, as the concrete blank-title submission shows. -/
theorem C10_empty_title_not_rejected (userId bookId : Nat) (form : BookForm) :
    (postBooks userId form).1.title = form.title ∧
    (postBookEdit userId bookId form).1.title = form.title ∧
    (postBooks userId form).2.2 = Response.redirect "/" ∧
    (postBookEdit userId bookId form).2.2.2 = Response.redirect "/" ∧
    ((coerceFields form).author = none ↔ form.author = "") ∧
    ((coerceFields form).isbn = none ↔ form.isbn = "") ∧
    ((coerceFields form).rating = none ↔ form.rating = "") ∧
    ((coerceFields form).notes = none ↔ form.notes = "") ∧
    ((coerceFields form).finished_on = none ↔ form.finished_on = "") ∧
    (postBooks 7 emptyTitleForm).1.title = "" ∧
    (postBooks 7 emptyTitleForm).2.2 = Response.redirect "/" :=
  ⟨rfl, rfl, rfl, rfl, jsOrNull_eq_none_iff form.author,
   jsOrNull_eq_none_iff form.isbn, jsOrNull_eq_none_iff form.rating,
   jsOrNull_eq_none_iff form.notes, jsOrNull_eq_none_iff form.finished_on,
   rfl, rfl⟩

end BookNotesApp
